import Mathlib

/-! Focus Lynx driver: declarations of `focuslynxbase.h`.

A shallow embedding of the constants, enumerations, array extents and member
signatures declared in `src/drivers/focuser/focuslynxbase.h`, and the properties
of the data model that follow from them.
-/

namespace FocusLynxBase

/-! ## Preprocessor constants (lines 37-41) -/

/-- `#define LYNXFOCUS_TEMPERATURE_FREQ 20`: temperature is updated every 20 polling cycles. -/
def LYNXFOCUS_TEMPERATURE_FREQ : Nat := 20

/-- `#define LYNXFOCUS_POSITION_THRESHOLD 5`: difference in steps that a position update must exceed. -/
def LYNXFOCUS_POSITION_THRESHOLD : Nat := 5

/-! ## Enumerations (lines 56-76) -/

/-- The anonymous enumeration of lines 56-64, whose first enumerator is `FOCUS_A_COEFF`.
The source gives it no name; the enumerators keep theirs. -/
inductive FocusCoeff where
  | FOCUS_A_COEFF
  | FOCUS_B_COEFF
  | FOCUS_C_COEFF
  | FOCUS_D_COEFF
  | FOCUS_E_COEFF
  | FOCUS_F_COEFF
  deriving DecidableEq, Repr, Fintype

/-- Integer value of an enumerator of the anonymous enumeration. No enumerator has an
initialiser, so the first is 0 and each later one is one more than its predecessor:
the value is the position in the declaration. -/
def FocusCoeff.ordinal (c : FocusCoeff) : Nat := c.toCtorIdx

/-- The enumerators of the anonymous enumeration, in declaration order. -/
def FocusCoeff.enumerators : List FocusCoeff :=
  [FocusCoeff.FOCUS_A_COEFF, FocusCoeff.FOCUS_B_COEFF, FocusCoeff.FOCUS_C_COEFF,
   FocusCoeff.FOCUS_D_COEFF, FocusCoeff.FOCUS_E_COEFF, FocusCoeff.FOCUS_F_COEFF]

/-- The enumeration `LYNX_STATUS` of lines 65-76. -/
inductive LYNX_STATUS where
  | STATUS_MOVING
  | STATUS_HOMING
  | STATUS_HOMED
  | STATUS_FFDETECT
  | STATUS_TMPPROBE
  | STATUS_REMOTEIO
  | STATUS_HNDCTRL
  | STATUS_REVERSE
  | STATUS_UNKNOWN
  deriving DecidableEq, Repr, Fintype

/-- Integer value of a `LYNX_STATUS` enumerator: its position in the declaration, since no
enumerator has an initialiser. -/
def LYNX_STATUS.ordinal (s : LYNX_STATUS) : Nat := s.toCtorIdx

/-- The enumerators of `LYNX_STATUS`, in declaration order. -/
def LYNX_STATUS.enumerators : List LYNX_STATUS :=
  [LYNX_STATUS.STATUS_MOVING, LYNX_STATUS.STATUS_HOMING, LYNX_STATUS.STATUS_HOMED,
   LYNX_STATUS.STATUS_FFDETECT, LYNX_STATUS.STATUS_TMPPROBE, LYNX_STATUS.STATUS_REMOTEIO,
   LYNX_STATUS.STATUS_HNDCTRL, LYNX_STATUS.STATUS_REVERSE, LYNX_STATUS.STATUS_UNKNOWN]

/-- The status flags proper: every enumerator of `LYNX_STATUS` but `STATUS_UNKNOWN`,
in declaration order. -/
def statusFlags : List LYNX_STATUS :=
  LYNX_STATUS.enumerators.filter (fun s => decide (s ≠ LYNX_STATUS.STATUS_UNKNOWN))

/-! ## Array extents (lines 142, 198, 214) -/

/-- Extent of `ISState simStatus[8]`. -/
def simStatus_size : Nat := 8

/-- Extent of `ILight StatusL[8]`. -/
def StatusL_size : Nat := 8

/-- Extent of `ISwitch TemperatureCompensateModeS[5]`. -/
def TemperatureCompensateModeS_size : Nat := 5

/-- An index is within an array of the given extent. -/
def inBounds (extent i : Nat) : Prop := i < extent

instance (extent i : Nat) : Decidable (inBounds extent i) := by
  unfold inBounds; infer_instance

/-! ## Machine integer types of the declarations -/

/-- The C type `uint32_t`: an unsigned 32-bit integer, a natural number below `2 ^ 32`. -/
abbrev uint32_t : Type := { n : Nat // n < 2 ^ 32 }

/-- The C type `u_int16_t`: an unsigned 16-bit integer, a natural number below `2 ^ 16`. -/
abbrev u_int16_t : Type := { n : Nat // n < 2 ^ 16 }

/-- The C type `int32_t`: a signed 32-bit integer, an integer from `-2 ^ 31` up to
`2 ^ 31 - 1`. -/
abbrev int32_t : Type := { z : Int // -(2 ^ 31) ≤ z ∧ z < 2 ^ 31 }

/-! ## Data members and member-function parameter lists -/

/-- The private data members `uint32_t simPosition; uint32_t targetPosition;` (lines 139-140). -/
structure PositionMembers where
  simPosition : uint32_t
  targetPosition : uint32_t

/-- Parameter list of `IPState MoveAbsFocuser(uint32_t targetPosition)` (line 95). -/
structure MoveAbsFocuser.Params where
  targetPosition : uint32_t

/-- Parameter list of `IPState MoveRelFocuser(FocusDirection dir, uint32_t ticks)` (line 96).
The type `FocusDirection` belongs to the host framework (`indifocuser.h`) and is a parameter. -/
structure MoveRelFocuser.Params (FocusDirection : Type) where
  dir : FocusDirection
  ticks : uint32_t

/-- Parameter list of `bool SetFocuserMaxPosition(uint32_t ticks)` (line 117). -/
structure SetFocuserMaxPosition.Params where
  ticks : uint32_t

/-- Parameter list of `bool SyncFocuser(uint32_t ticks)` (line 119). -/
structure SyncFocuser.Params where
  ticks : uint32_t

/-- Parameter list of `bool SetFocuserBacklash(int32_t steps)` (line 121). -/
structure SetFocuserBacklash.Params where
  steps : int32_t

/-- Parameter list of `bool SetFocuserBacklashEnabled(bool enabled)` (line 122). -/
structure SetFocuserBacklashEnabled.Params where
  enabled : Bool

/-- Parameter list of `bool setStepSize(u_int16_t stepsize)` (line 159). -/
structure setStepSize.Params where
  stepsize : u_int16_t

/-! ## Polling -/

/-- Distance in steps between two positions. -/
def positionDiff (a b : uint32_t) : Nat := Int.natAbs ((a.val : Int) - (b.val : Int))

/-- Modelled from the spec: the body of `FocusLynxBase::TimerHit` is in `focuslynxbase.cpp`,
which is not among the sources; only its declaration (line 99) is. The decision taken while
polling follows the description attached to `LYNXFOCUS_POSITION_THRESHOLD` (line 41): a
position update is sent to the client only if the difference between the newly read position
and the last reported one exceeds the threshold. -/
def TimerHit.positionUpdateSent (lastReported newPosition : uint32_t) : Bool :=
  decide (LYNXFOCUS_POSITION_THRESHOLD < positionDiff newPosition lastReported)

/-! ## Helper lemmas on the enumerations -/

theorem LYNX_STATUS_mem_enumerators (s : LYNX_STATUS) : s ∈ LYNX_STATUS.enumerators := by
  cases s <;> decide

theorem LYNX_STATUS_enumerators_ordinals :
    LYNX_STATUS.enumerators.map LYNX_STATUS.ordinal = List.range 9 := by
  decide

theorem FocusCoeff_mem_enumerators (c : FocusCoeff) : c ∈ FocusCoeff.enumerators := by
  cases c <;> decide

theorem FocusCoeff_enumerators_ordinals :
    FocusCoeff.enumerators.map FocusCoeff.ordinal = List.range 6 := by
  decide

theorem LYNX_STATUS_ordinal_injective : Function.Injective LYNX_STATUS.ordinal := by
  intro a b h
  cases a <;> cases b <;> first | rfl | (exact absurd h (by decide))

theorem FocusCoeff_ordinal_injective : Function.Injective FocusCoeff.ordinal := by
  intro a b h
  cases a <;> cases b <;> first | rfl | (exact absurd h (by decide))

/-! ## Helper lemmas on the machine integer types -/

theorem uint32_t_range (v : uint32_t) : (0 : Int) ≤ (v.val : Int) ∧ (v.val : Int) ≤ 2 ^ 32 - 1 := by
  have h := v.property
  omega

theorem uint32_t_exists_val (n : Nat) (h : n ≤ 2 ^ 32 - 1) : ∃ v : uint32_t, v.val = n :=
  ⟨⟨n, by omega⟩, rfl⟩

theorem uint32_t_ne_of_neg (z : Int) (h : z < 0) (v : uint32_t) : (v.val : Int) ≠ z := by
  omega

theorem u_int16_t_range (v : u_int16_t) : (0 : Int) ≤ (v.val : Int) ∧ (v.val : Int) ≤ 2 ^ 16 - 1 := by
  have h := v.property
  omega

theorem u_int16_t_exists_val (n : Nat) (h : n ≤ 2 ^ 16 - 1) : ∃ v : u_int16_t, v.val = n :=
  ⟨⟨n, by omega⟩, rfl⟩

theorem u_int16_t_ne_of_neg (z : Int) (h : z < 0) (v : u_int16_t) : (v.val : Int) ≠ z := by
  omega

theorem int32_t_exists_val (z : Int) (hlo : -(2 ^ 31) ≤ z) (hhi : z ≤ 2 ^ 31 - 1) :
    ∃ v : int32_t, v.val = z :=
  ⟨⟨z, hlo, by omega⟩, rfl⟩

/-! ## Status flags -/

/-- C1: the status flags are exactly the eight enumerators `STATUS_MOVING`, `STATUS_HOMING`,
`STATUS_HOMED`, `STATUS_FFDETECT`, `STATUS_TMPPROBE`, `STATUS_REMOTEIO`, `STATUS_HNDCTRL`,
`STATUS_REVERSE`, in this order; their ordinals are 0,1,2,3,4,5,6,7 respectively and pairwise
distinct; and the only other enumerator of `LYNX_STATUS` is `STATUS_UNKNOWN`, which is none of
the flags and whose ordinal is none of theirs. -/
theorem status_flags_fixed_eight :
    statusFlags =
        [LYNX_STATUS.STATUS_MOVING, LYNX_STATUS.STATUS_HOMING, LYNX_STATUS.STATUS_HOMED,
         LYNX_STATUS.STATUS_FFDETECT, LYNX_STATUS.STATUS_TMPPROBE, LYNX_STATUS.STATUS_REMOTEIO,
         LYNX_STATUS.STATUS_HNDCTRL, LYNX_STATUS.STATUS_REVERSE]
      ∧ statusFlags.length = 8
      ∧ statusFlags.map LYNX_STATUS.ordinal = [0, 1, 2, 3, 4, 5, 6, 7]
      ∧ (statusFlags.map LYNX_STATUS.ordinal).Nodup
      ∧ (∀ s : LYNX_STATUS, s ∈ statusFlags ∨ s = LYNX_STATUS.STATUS_UNKNOWN)
      ∧ LYNX_STATUS.STATUS_UNKNOWN ∉ statusFlags
      ∧ LYNX_STATUS.ordinal LYNX_STATUS.STATUS_UNKNOWN ∉ statusFlags.map LYNX_STATUS.ordinal := by
  refine ⟨by decide, by decide, by decide, by decide, ?_, by decide, by decide⟩
  intro s
  cases s <;> decide

/-- C7: every `LYNX_STATUS` value other than `STATUS_UNKNOWN` has an ordinal within both
`simStatus[8]` and `StatusL[8]`; every index within those arrays is the ordinal of exactly one
such flag; and `STATUS_UNKNOWN`, of ordinal 8, is out of bounds for both and is the only
enumerator that is. -/
theorem status_ordinals_index_flag_arrays :
    (∀ s : LYNX_STATUS, s ≠ LYNX_STATUS.STATUS_UNKNOWN →
        inBounds simStatus_size s.ordinal ∧ inBounds StatusL_size s.ordinal)
      ∧ (∀ i : Nat, inBounds simStatus_size i →
          ∃! s : LYNX_STATUS, s ≠ LYNX_STATUS.STATUS_UNKNOWN ∧ s.ordinal = i)
      ∧ (∀ i : Nat, inBounds StatusL_size i →
          ∃! s : LYNX_STATUS, s ≠ LYNX_STATUS.STATUS_UNKNOWN ∧ s.ordinal = i)
      ∧ LYNX_STATUS.ordinal LYNX_STATUS.STATUS_UNKNOWN = 8
      ∧ ¬ inBounds simStatus_size (LYNX_STATUS.ordinal LYNX_STATUS.STATUS_UNKNOWN)
      ∧ ¬ inBounds StatusL_size (LYNX_STATUS.ordinal LYNX_STATUS.STATUS_UNKNOWN)
      ∧ (∀ s : LYNX_STATUS,
          ¬ inBounds simStatus_size s.ordinal ∨ ¬ inBounds StatusL_size s.ordinal →
            s = LYNX_STATUS.STATUS_UNKNOWN) := by
  have key : ∀ i : Nat, i < 8 →
      ∃! s : LYNX_STATUS, s ≠ LYNX_STATUS.STATUS_UNKNOWN ∧ s.ordinal = i := by
    intro i hi
    have hex : ∃ s : LYNX_STATUS, s ≠ LYNX_STATUS.STATUS_UNKNOWN ∧ s.ordinal = i := by
      interval_cases i
      · exact ⟨LYNX_STATUS.STATUS_MOVING, by decide, rfl⟩
      · exact ⟨LYNX_STATUS.STATUS_HOMING, by decide, rfl⟩
      · exact ⟨LYNX_STATUS.STATUS_HOMED, by decide, rfl⟩
      · exact ⟨LYNX_STATUS.STATUS_FFDETECT, by decide, rfl⟩
      · exact ⟨LYNX_STATUS.STATUS_TMPPROBE, by decide, rfl⟩
      · exact ⟨ LYNX_STATUS.STATUS_REMOTEIO, by decide, rfl⟩
      · exact ⟨LYNX_STATUS.STATUS_HNDCTRL, by decide, rfl⟩
      · exact ⟨LYNX_STATUS.STATUS_REVERSE, by decide, rfl⟩
    obtain ⟨s, hs, hsi⟩ := hex
    exact ⟨s, ⟨hs, hsi⟩, fun t ht => LYNX_STATUS_ordinal_injective (ht.2.trans hsi.symm)⟩
  refine ⟨?_, key, key, rfl, by decide, by decide, ?_⟩
  · intro s hs
    cases s <;> first | exact absurd rfl hs | exact ⟨by decide, by decide⟩
  · intro s hs
    cases s <;> first | rfl | exact absurd hs (by decide)

/-- Witness of C7 at the flag `STATUS_REVERSE`, of ordinal 7, and at the last index 7 of
`simStatus` and `StatusL`. -/
theorem status_ordinals_index_flag_arrays_witness :
    (LYNX_STATUS.STATUS_REVERSE ≠ LYNX_STATUS.STATUS_UNKNOWN
        ∧ inBounds simStatus_size (LYNX_STATUS.ordinal LYNX_STATUS.STATUS_REVERSE)
        ∧ inBounds StatusL_size (LYNX_STATUS.ordinal LYNX_STATUS.STATUS_REVERSE))
      ∧ (inBounds simStatus_size 7
        ∧ ∃! s : LYNX_STATUS, s ≠ LYNX_STATUS.STATUS_UNKNOWN ∧ s.ordinal = 7)
      ∧ (inBounds StatusL_size 7
        ∧ ∃! s : LYNX_STATUS, s ≠ LYNX_STATUS.STATUS_UNKNOWN ∧ s.ordinal = 7) :=
  ⟨⟨by decide,
    status_ordinals_index_flag_arrays.1 LYNX_STATUS.STATUS_REVERSE (by decide)⟩,
   ⟨by decide, status_ordinals_index_flag_arrays.2.1 7 (by decide)⟩,
   ⟨by decide, status_ordinals_index_flag_arrays.2.2.1 7 (by decide)⟩⟩

/-! ## Temperature compensation modes -/

/-- C2, as stated, fails: the anonymous enumeration has six members, not five, and its member
`FOCUS_F_COEFF` has ordinal 5, which is not an index into the five-entry array
`TemperatureCompensateModeS`. -/
theorem coeff_enum_not_five_members :
    ¬ (Fintype.card FocusCoeff = 5
        ∧ ∀ c : FocusCoeff, inBounds TemperatureCompensateModeS_size c.ordinal)
      ∧ FocusCoeff.enumerators.length = 6
      ∧ FocusCoeff.ordinal FocusCoeff.FOCUS_F_COEFF = 5
      ∧ ¬ inBounds TemperatureCompensateModeS_size
          (FocusCoeff.ordinal FocusCoeff.FOCUS_F_COEFF) := by
  refine ⟨?_, rfl, rfl, by decide⟩
  rintro ⟨-, h⟩
  exact absurd (h FocusCoeff.FOCUS_F_COEFF) (by decide)

/-- C2, amended: the mode switch array `TemperatureCompensateModeS` has exactly 5 entries; the
anonymous enumeration starting at `FOCUS_A_COEFF` has exactly 6 members, of ordinals 0 to 5 in
declaration order; a member is a valid index into the array exactly when it is not
`FOCUS_F_COEFF`; and every index of the array is the ordinal of exactly one member. -/
theorem coeff_enum_six_members_five_modes :
    TemperatureCompensateModeS_size = 5
      ∧ Fintype.card FocusCoeff = 6
      ∧ FocusCoeff.enumerators.length = 6
      ∧ (∀ c : FocusCoeff, c ∈ FocusCoeff.enumerators)
      ∧ FocusCoeff.enumerators.map FocusCoeff.ordinal = [0, 1, 2, 3, 4, 5]
      ∧ (∀ c : FocusCoeff,
          inBounds TemperatureCompensateModeS_size c.ordinal ↔ c ≠ FocusCoeff.FOCUS_F_COEFF)
      ∧ (∀ i : Fin TemperatureCompensateModeS_size,
          ∃! c : FocusCoeff, c.ordinal = i.val) := by
  refine ⟨rfl, rfl, rfl, FocusCoeff_mem_enumerators, by decide, ?_, ?_⟩
  · intro c
    cases c <;> decide
  · intro i
    have hex : ∃ c : FocusCoeff, c.ordinal = i.val := by
      obtain ⟨n, hn⟩ := i
      have hn5 : n < 5 := hn
      interval_cases n
      · exact ⟨FocusCoeff.FOCUS_A_COEFF, rfl⟩
      · exact ⟨FocusCoeff.FOCUS_B_COEFF, rfl⟩
      · exact ⟨FocusCoeff.FOCUS_C_COEFF, rfl⟩
      · exact ⟨FocusCoeff.FOCUS_D_COEFF, rfl⟩
      · exact ⟨FocusCoeff.FOCUS_E_COEFF, rfl⟩
    obtain ⟨c, hc⟩ := hex
    exact ⟨c, hc, fun t ht => FocusCoeff_ordinal_injective (ht.trans hc.symm)⟩

/-! ## Temperature refresh period -/

/-- C5: with a polling period of 500 ms, one temperature refresh every
`LYNXFOCUS_TEMPERATURE_FREQ` = 20 polling cycles is a refresh period of 10000 ms, that is
exactly 10 seconds. -/
theorem temperature_refresh_period_ten_seconds :
    LYNXFOCUS_TEMPERATURE_FREQ = 20
      ∧ LYNXFOCUS_TEMPERATURE_FREQ * 500 = 10000
      ∧ LYNXFOCUS_TEMPERATURE_FREQ * 500 = 10 * 1000 := by
  refine ⟨rfl, ?_, ?_⟩ <;> decide

/-! ## Position quantities -/

/-- C3: every position quantity declared in the header is an unsigned tick count. The stored
`simPosition` and `targetPosition` and the arguments of `MoveAbsFocuser`, `MoveRelFocuser`,
`SyncFocuser` and `SetFocuserMaxPosition` lie in 0..2^32-1 and take every value of that range;
the step size of `setStepSize` lies in 0..2^16-1 and takes every value of that range; and no
negative integer is the value of any of them. -/
theorem position_quantities_unsigned (FocusDirection : Type) :
    (∀ m : PositionMembers,
        ((0 : Int) ≤ m.simPosition.val ∧ (m.simPosition.val : Int) ≤ 2 ^ 32 - 1)
          ∧ ((0 : Int) ≤ m.targetPosition.val ∧ (m.targetPosition.val : Int) ≤ 2 ^ 32 - 1))
      ∧ (∀ p : MoveAbsFocuser.Params,
          (0 : Int) ≤ p.targetPosition.val ∧ (p.targetPosition.val : Int) ≤ 2 ^ 32 - 1)
      ∧ (∀ p : MoveRelFocuser.Params FocusDirection,
          (0 : Int) ≤ p.ticks.val ∧ (p.ticks.val : Int) ≤ 2 ^ 32 - 1)
      ∧ (∀ p : SyncFocuser.Params, (0 : Int) ≤ p.ticks.val ∧ (p.ticks.val : Int) ≤ 2 ^ 32 - 1)
      ∧ (∀ p : SetFocuserMaxPosition.Params,
          (0 : Int) ≤ p.ticks.val ∧ (p.ticks.val : Int) ≤ 2 ^ 32 - 1)
      ∧ (∀ p : setStepSize.Params,
          (0 : Int) ≤ p.stepsize.val ∧ (p.stepsize.val : Int) ≤ 2 ^ 16 - 1)
      ∧ (∀ n : Nat, n ≤ 2 ^ 32 - 1 →
          (∃ m : PositionMembers, m.simPosition.val = n)
            ∧ (∃ m : PositionMembers, m.targetPosition.val = n)
            ∧ (∃ p : MoveAbsFocuser.Params, p.targetPosition.val = n)
            ∧ (∀ d : FocusDirection,
                ∃ p : MoveRelFocuser.Params FocusDirection, p.dir = d ∧ p.ticks.val = n)
            ∧ (∃ p : SyncFocuser.Params, p.ticks.val = n)
            ∧ (∃ p : SetFocuserMaxPosition.Params, p.ticks.val = n))
      ∧ (∀ n : Nat, n ≤ 2 ^ 16 - 1 → ∃ p : setStepSize.Params, p.stepsize.val = n)
      ∧ (∀ z : Int, z < 0 →
          (∀ m : PositionMembers,
              (m.simPosition.val : Int) ≠ z ∧ (m.targetPosition.val : Int) ≠ z)
            ∧ (∀ p : MoveAbsFocuser.Params, (p.targetPosition.val : Int) ≠ z)
            ∧ (∀ p : MoveRelFocuser.Params FocusDirection, (p.ticks.val : Int) ≠ z)
            ∧ (∀ p : SyncFocuser.Params, (p.ticks.val : Int) ≠ z)
            ∧ (∀ p : SetFocuserMaxPosition.Params, (p.ticks.val : Int) ≠ z)
            ∧ (∀ p : setStepSize.Params, (p.stepsize.val : Int) ≠ z)) := by
  refine ⟨fun m => ⟨uint32_t_range _, uint32_t_range _⟩, fun p => uint32_t_range _,
    fun p => uint32_t_range _, fun p => uint32_t_range _, fun p => uint32_t_range _,
    fun p => u_int16_t_range _, ?_, ?_, ?_⟩
  · intro n hn
    obtain ⟨v, hv⟩ := uint32_t_exists_val n hn
    exact ⟨⟨⟨v, v⟩, hv⟩, ⟨⟨v, v⟩, hv⟩, ⟨⟨v⟩, hv⟩, fun d => ⟨⟨d, v⟩, rfl, hv⟩, ⟨⟨v⟩, hv⟩,
      ⟨⟨v⟩, hv⟩⟩
  · intro n hn
    obtain ⟨v, hv⟩ := u_int16_t_exists_val n hn
    exact ⟨⟨v⟩, hv⟩
  · intro z hz
    exact ⟨fun m => ⟨uint32_t_ne_of_neg z hz _, uint32_t_ne_of_neg z hz _⟩,
      fun p => uint32_t_ne_of_neg z hz _, fun p => uint32_t_ne_of_neg z hz _,
      fun p => uint32_t_ne_of_neg z hz _, fun p => uint32_t_ne_of_neg z hz _,
      fun p => u_int16_t_ne_of_neg z hz _⟩

/-- Witness of C3: the largest tick count 4294967295 is an argument of `MoveAbsFocuser`, the
largest step size 65535 is an argument of `setStepSize`, and -1 is no stored `simPosition`. -/
theorem position_quantities_unsigned_witness :
    (∃ p : MoveAbsFocuser.Params, p.targetPosition.val = 4294967295)
      ∧ (∃ p : setStepSize.Params, p.stepsize.val = 65535)
      ∧ (∀ m : PositionMembers, (m.simPosition.val : Int) ≠ -1) :=
  ⟨((position_quantities_unsigned Bool).2.2.2.2.2.2.1 4294967295 (by decide)).2.2.1,
   (position_quantities_unsigned Bool).2.2.2.2.2.2.2.1 65535 (by decide),
   fun m => (((position_quantities_unsigned Bool).2.2.2.2.2.2.2.2 (-1) (by decide)).1 m).1⟩

/-! ## Backlash configuration -/

/-- C4: the backlash configuration is a signed step offset plus an enabled flag. The argument
of `SetFocuserBacklash` lies in -2^31..2^31-1 and takes every value of that range, negative
ones included; the argument of `SetFocuserBacklashEnabled` is one of the two distinct values
true and false; and every offset of the range goes with either value of the flag. -/
theorem backlash_signed_offset_and_flag :
    (∀ p : SetFocuserBacklash.Params, -(2 ^ 31) ≤ p.steps.val ∧ p.steps.val ≤ 2 ^ 31 - 1)
      ∧ (∀ z : Int, -(2 ^ 31) ≤ z → z ≤ 2 ^ 31 - 1 →
          ∃ p : SetFocuserBacklash.Params, p.steps.val = z)
      ∧ (∃ p : SetFocuserBacklash.Params, p.steps.val < 0)
      ∧ (∀ q : SetFocuserBacklashEnabled.Params, q.enabled = true ∨ q.enabled = false)
      ∧ (∃ q r : SetFocuserBacklashEnabled.Params,
          q.enabled = true ∧ r.enabled = false ∧ q.enabled ≠ r.enabled)
      ∧ (∀ z : Int, -(2 ^ 31) ≤ z → z ≤ 2 ^ 31 - 1 → ∀ b : Bool,
          ∃ (p : SetFocuserBacklash.Params) (q : SetFocuserBacklashEnabled.Params),
            p.steps.val = z ∧ q.enabled = b) := by
  refine ⟨?_, ?_, ?_, ?_, ?_, ?_⟩
  · intro p
    have h := p.steps.property
    omega
  · intro z hlo hhi
    obtain ⟨v, hv⟩ := int32_t_exists_val z hlo hhi
    exact ⟨⟨v⟩, hv⟩
  · obtain ⟨v, hv⟩ := int32_t_exists_val (-1) (by decide) (by decide)
    exact ⟨⟨v⟩, by rw [hv]; decide⟩
  · intro q
    cases q.enabled <;> simp
  · exact ⟨⟨true⟩, ⟨false⟩, rfl, rfl, by decide⟩
  · intro z hlo hhi b
    obtain ⟨v, hv⟩ := int32_t_exists_val z hlo hhi
    exact ⟨⟨v⟩, ⟨b⟩, hv, rfl⟩

/-- Witness of C4: the most negative offset -2147483648 is an argument of
`SetFocuserBacklash`, together with the flag value false. -/
theorem backlash_signed_offset_and_flag_witness :
    ∃ (p : SetFocuserBacklash.Params) (q : SetFocuserBacklashEnabled.Params),
      p.steps.val = -2147483648 ∧ q.enabled = false :=
  backlash_signed_offset_and_flag.2.2.2.2.2 (-2147483648) (by decide) (by decide) false

/-! ## Position updates while polling -/

/-- C6: while polling, a position update is sent only if the newly read position and the last
reported one differ by strictly more than `LYNXFOCUS_POSITION_THRESHOLD` = 5 steps; for every
pair of positions differing by 5 steps or fewer no update is sent. -/
theorem position_update_only_above_threshold (lastReported newPosition : uint32_t) :
    LYNXFOCUS_POSITION_THRESHOLD = 5
      ∧ (TimerHit.positionUpdateSent lastReported newPosition = true →
          5 < |(newPosition.val : Int) - (lastReported.val : Int)|)
      ∧ (|(newPosition.val : Int) - (lastReported.val : Int)| ≤ 5 →
          TimerHit.positionUpdateSent lastReported newPosition = false) := by
  have habs : ((positionDiff newPosition lastReported : Nat) : Int)
      = |(newPosition.val : Int) - (lastReported.val : Int)| := by
    unfold positionDiff
    exact Int.natCast_natAbs _
  refine ⟨rfl, ?_, ?_⟩
  · intro h
    have h1 : LYNXFOCUS_POSITION_THRESHOLD < positionDiff newPosition lastReported := by
      simpa [TimerHit.positionUpdateSent] using h
    have h2 : 5 < positionDiff newPosition lastReported := h1
    rw [← habs]
    exact_mod_cast h2
  · intro h
    rw [← habs] at h
    have h2 : positionDiff newPosition lastReported ≤ 5 := by exact_mod_cast h
    have h3 : ¬ LYNXFOCUS_POSITION_THRESHOLD < positionDiff newPosition lastReported := by
      show ¬ 5 < positionDiff newPosition lastReported
      omega
    simp [TimerHit.positionUpdateSent, h3]

/-- Witness of C6: from a last reported position 1000, a newly read position 1005 differs by
exactly 5 steps and no update is sent; a newly read position 994, for which an update is sent,
differs by more than 5 steps. -/
theorem position_update_only_above_threshold_witness :
    (|((1005 : Nat) : Int) - ((1000 : Nat) : Int)| ≤ 5
        ∧ TimerHit.positionUpdateSent ⟨1000, by decide⟩ ⟨1005, by decide⟩ = false)
      ∧ (TimerHit.positionUpdateSent ⟨1000, by decide⟩ ⟨994, by decide⟩ = true
        ∧ 5 < |((994 : Nat) : Int) - ((1000 : Nat) : Int)|) :=
  ⟨⟨by decide,
    (position_update_only_above_threshold ⟨1000, by decide⟩ ⟨1005, by decide⟩).2.2
      (by decide)⟩,
   ⟨by decide,
    (position_update_only_above_threshold ⟨1000, by decide⟩ ⟨994, by decide⟩).2.1
      (by decide)⟩⟩

end FocusLynxBase
